import Mathlib

/-!
Shallow embedding of `runcmd` and its helpers from `src/build.py` of the
repository Nomeqc/naiveproxy-server-build.

Modelling conventions:
* Python byte strings and text strings produced by decoding are both modelled
  as `List Nat` (a byte sequence resp. a sequence of Unicode code points).
  Argument tokens, which are never decoded, are modelled as Lean `String`s.
* Platform-dependent library facilities (`os.name`, the availability of
  `msvcrt`, `shlex.split`, `subprocess.list2cmdline`, the `gbk` codec) are
  fields of a `Platform` record over which the theorems quantify.
* The behaviour of the launched operating-system process (launch failure,
  timeout, other exception raised while communicating, or completion with
  captured output and an exit status) is an oracle value `ProcOutcome`
  supplied to the embedding; `runcmd` itself never invents process behaviour.
* Side effects on the process (kill, wait, the reap-and-close performed by
  `subprocess.Popen.__exit__`) are recorded as an event trace so that the
  resource-release obligations can be stated.
-/

set_option linter.unusedVariables false

namespace Build

/-- Value of `os.name` as far as `src/build.py` distinguishes it
(lines 66 and 75 test `"posix"` and `"nt"`). -/
inductive OSName where
  | posix
  | nt
  | otherOS
deriving DecidableEq

/-- A Python value appearing as an element of an iterable `args`:
a `str`, a `pathlib.Path`, or a value of any other type (line 70 of
`src/build.py` checks `isinstance(item, (str, Path))`). -/
inductive PyVal where
  | str (s : String)
  | path (p : String)
  | other (ty : String)
deriving DecidableEq

/-- Whether `isinstance(item, (str, Path))` holds (line 70 of `src/build.py`). -/
def PyVal.isStrOrPath : PyVal → Bool
  | .str _ => true
  | .path _ => true
  | .other _ => false

/-- Python `str(item)` on an argument token (line 74 of `src/build.py`). -/
def PyVal.toStr : PyVal → String
  | .str s => s
  | .path p => p
  | .other ty => ty

/-- The type name interpolated into the `TypeError` message of line 71. -/
def PyVal.typeName : PyVal → String
  | .str _ => "str"
  | .path _ => "Path"
  | .other ty => ty

/-- The `args` parameter of `runcmd` (line 19 of `src/build.py`):
a single string, an iterable of values, or a value of any other type. -/
inductive ArgsSpec where
  | str (s : String)
  | iter (items : List PyVal)
  | other (ty : String)
deriving DecidableEq

/-- The argument value handed to `subprocess.Popen` after the argument
resolution of lines 65-78: either a single command-line string or a list
of argument tokens. -/
inductive ResolvedArgs where
  | argStr (s : String)
  | argList (l : List String)
deriving DecidableEq

/-- A value supplied for the `startupinfo` keyword argument: either a proper
`subprocess.STARTUPINFO` instance or a value of the wrong type
(line 82 of `src/build.py` checks `isinstance`). -/
inductive StartupInfoVal where
  | proper
  | improper
deriving DecidableEq

/-- The keyword arguments of `runcmd` that the function itself inspects
(`stdin`, `stdout`, `stderr`, `startupinfo`); for the three stream keys only
their presence (being not `None`) is observable to the checks of
lines 51-63 of `src/build.py`. -/
structure Kwargs where
  stdin : Option Unit
  stdout : Option Unit
  stderr : Option Unit
  startupinfo : Option StartupInfoVal
deriving DecidableEq

/-- Keyword arguments with every recognised key absent. -/
def Kwargs.empty : Kwargs := ⟨none, none, none, none⟩

/-- The platform-dependent facilities used by `runcmd`: the value of
`os.name`, whether `import msvcrt` succeeds (lines 44-49), and models of the
external library functions `shlex.split`, `subprocess.list2cmdline` and the
CPython `gbk` codec, all of which live outside this repository. -/
structure Platform where
  osName : OSName
  mswindows : Bool
  shlexSplit : String → List String
  list2cmdline : List String → String
  gbkDecode : List Nat → Option (List Nat)

/-- Oracle describing what the operating-system process does once
`subprocess.Popen` is called on line 90 of `src/build.py`:
the launch itself fails, `communicate` raises `subprocess.TimeoutExpired`
(carrying the partial output the platform can still collect), `communicate`
raises some other `Exception`, or the process runs to completion with
captured stdout/stderr data (`none` when the stream was not piped) and an
OS-reported exit status. -/
inductive ProcOutcome where
  | launchFailure (msg : List Nat)
  | timeoutExpired (partialOut : Option (List Nat)) (msg : List Nat)
  | otherExc (msg : List Nat)
  | completed (stdoutData stderrData : Option (List Nat)) (retcode : Int)
deriving DecidableEq

/-- Events performed on the underlying process, in order: the launch of
line 90, `process.kill()` (lines 94, 101), the reaping
`process.communicate()` of line 96, `process.wait()` of line 98, and the
reap-and-close-pipes performed by `subprocess.Popen.__exit__` when the
`with` block of line 90 is left on any path. -/
inductive PEvent where
  | launched
  | killed
  | communicateReaped
  | waited
  | ctxExit
deriving DecidableEq

/-- The exceptions `runcmd` can raise: the two `ValueError`s of lines 53 and
58, the `TypeError`s of lines 71, 78 and 83, a re-raised launch failure
(line 105 with `check=True`), a re-raised `subprocess.TimeoutExpired`
(line 99 then 105) with the output lines 95-96 may have attached, the
`subprocess.CalledProcessError` of line 111, and a re-raised other
exception. -/
inductive RunError where
  | valueErrorStdinInput
  | valueErrorStdoutStderr
  | typeErrorBadItem (ty : String)
  | typeErrorBadArgs (ty : String)
  | typeErrorStartupinfo
  | launchError (msg : List Nat)
  | timeoutError (attachedStdout : Option (List Nat)) (msg : List Nat)
  | calledProcessError (returncode : Int) (cmdArgs : ResolvedArgs)
      (output stderrData : Option (List Nat))
  | otherError (msg : List Nat)
deriving DecidableEq

/-- The configuration errors of the spec's taxonomy: the `ValueError`s and
`TypeError`s raised by lines 51-87 before any process is launched. -/
def RunError.isConfigError : RunError → Bool
  | .valueErrorStdinInput => true
  | .valueErrorStdoutStderr => true
  | .typeErrorBadItem _ => true
  | .typeErrorBadArgs _ => true
  | .typeErrorStartupinfo => true
  | _ => false

/-- Whether the error is one of the two `ValueError`s of lines 53 and 58. -/
def RunError.isValueError : RunError → Bool
  | .valueErrorStdinInput => true
  | .valueErrorStdoutStderr => true
  | _ => false

/-! ### Model of the CPython UTF-8 codec

`runcmd` calls `bytes.decode("utf-8")` (strict) on line 121 and
`bytes.decode("utf-8", errors="ignore")` on line 125.  These codecs live in
the Python runtime, outside the repository; they are modelled here.
The strict decoder accepts exactly well-formed UTF-8 (no surrogates, no
overlong forms, nothing above U+10FFFF); the error handlers skip
(`ignore`) or replace with U+FFFD (`replace`) one maximal valid subpart at
a time, as CPython does. -/

/-- Error regimes of the codec: `strict` fails, `ignore` drops the maximal
subpart, `replace` substitutes U+FFFD for it. -/
inductive Utf8Mode where
  | strict
  | ignore
  | replace
deriving DecidableEq

/-- What the decoder does at an ill-formed position, given the decoding `r`
of the input that follows the maximal subpart. -/
def onInvalid (mode : Utf8Mode) (r : Option (List Nat)) : Option (List Nat) :=
  match mode with
  | .strict => none
  | .ignore => r
  | .replace => r.map (0xFFFD :: ·)

/-- Decoder state: expecting a lead byte, or in the middle of a multi-byte
sequence with partial code point `acc`, `need` continuation bytes still
required, and admissible range `lo`-`hi` for the next byte (restricted
after the lead to exclude overlong forms, surrogates and code points above
U+10FFFF). -/
inductive Utf8State where
  | start
  | mid (acc need lo hi : Nat)
deriving DecidableEq

/-- Classification of a byte in the lead position: an ASCII code point,
the state opened by a well-formed lead byte, or `none` for a byte that
cannot start a sequence (continuations, 0xC0/0xC1, 0xF5-0xFF). -/
def utf8Lead (b : Nat) : Option (Sum Nat Utf8State) :=
  if b < 0x80 then some (.inl b)
  else if b < 0xC2 then none
  else if b < 0xE0 then some (.inr (.mid (b - 0xC0) 1 0x80 0xBF))
  else if b < 0xF0 then
    some (.inr (.mid (b - 0xE0) 2
      (if b = 0xE0 then 0xA0 else 0x80) (if b = 0xED then 0x9F else 0xBF)))
  else if b < 0xF5 then
    some (.inr (.mid (b - 0xF0) 3
      (if b = 0xF0 then 0x90 else 0x80) (if b = 0xF4 then 0x8F else 0xBF)))
  else none

/-- UTF-8 decoding of a byte list into code points under the given error
regime, one byte at a time; a byte that fails as a continuation ends the
current (now invalid) maximal subpart and is reconsidered as a lead, as
CPython's error handlers do. -/
def utf8Run (mode : Utf8Mode) : Utf8State → List Nat → Option (List Nat)
  | .start, [] => some []
  | .mid _ _ _ _, [] => onInvalid mode (some [])
  | .start, b :: rest =>
    match utf8Lead b with
    | some (.inl cp) => (utf8Run mode .start rest).map (cp :: ·)
    | some (.inr st) => utf8Run mode st rest
    | none => onInvalid mode (utf8Run mode .start rest)
  | .mid acc need lo hi, b :: rest =>
    if lo ≤ b ∧ b ≤ hi then
      if need = 1 then (utf8Run mode .start rest).map ((acc * 0x40 + (b - 0x80)) :: ·)
      else utf8Run mode (.mid (acc * 0x40 + (b - 0x80)) (need - 1) 0x80 0xBF) rest
    else
      onInvalid mode
        (match utf8Lead b with
          | some (.inl cp) => (utf8Run mode .start rest).map (cp :: ·)
          | some (.inr st) => utf8Run mode st rest
          | none => onInvalid mode (utf8Run mode .start rest))

/-- Strict UTF-8 decoding: `bytes.decode("utf-8")` of line 121, `none`
standing for a raised `UnicodeDecodeError`. -/
def utf8DecodeStrict (b : List Nat) : Option (List Nat) :=
  utf8Run .strict .start b

/-- `bytes.decode("utf-8", errors="ignore")` of line 125: ill-formed
subparts are dropped. -/
def utf8DecodeIgnore (b : List Nat) : List Nat :=
  (utf8Run .ignore .start b).getD []

/-- Modelled from the spec: a best-effort UTF-8 decoding that substitutes
U+FFFD for unmappable bytes (`errors="replace"`), the behaviour §4.1 step 7
ascribes to the final fallback.  Present only to compare the spec's wording
against the `errors="ignore"` call the code performs. -/
def utf8DecodeReplace (b : List Nat) : List Nat :=
  (utf8Run .replace .start b).getD []

/-- Structural model of the CPython `gbk` codec used by line 121's loop:
bytes below 0x80 decode as themselves, a lead byte in 0x81-0xFE followed by
a trail byte in 0x40-0xFE other than 0x7F decodes as a double-byte
character (the concrete code-point table of the codec is immaterial to the
claims, which quantify over the codec; pairs are mapped injectively to
`lead * 256 + trail`), and anything else raises.  Used only to instantiate
witnesses. -/
def gbkDecodeModel : List Nat → Option (List Nat)
  | [] => some []
  | b :: rest =>
    if b < 0x80 then (gbkDecodeModel rest).map (b :: ·)
    else
      match rest with
      | [] => none
      | b1 :: rest1 =>
        if 0x81 ≤ b ∧ b ≤ 0xFE ∧ 0x40 ≤ b1 ∧ b1 ≤ 0xFE ∧ b1 ≠ 0x7F then
          (gbkDecodeModel rest1).map ((b * 0x100 + b1) :: ·)
        else none

/-! ### The normalization helpers of `runcmd` (lines 114-127) -/

/-- Lines 115-118 of `src/build.py`: strip one trailing CRLF if the bytes
end with `b"\r\n"` (`stdout[-2:] == b"\r\n"`), else one trailing LF if they
end with `b"\n"` (`stdout[-1:] == b"\n"`), else leave the bytes unchanged.
The Python slice `stdout[-k:]` is the list of the last `k` bytes, i.e. the
reversal of `stdout.reverse.take k`; `stdout[:-k]` drops them. -/
def stripNewline (stdout : List Nat) : List Nat :=
  if stdout.reverse.take 2 = [10, 13] then (stdout.reverse.drop 2).reverse
  else if stdout.reverse.take 1 = [10] then (stdout.reverse.drop 1).reverse
  else stdout

/-- Lines 119-125 of `src/build.py`: try `utf-8` then `gbk` strictly, in
that order, returning the first success; if both raise, decode with
`utf-8` and `errors="ignore"`. -/
def decodeBytes (gbkDecode : List Nat → Option (List Nat)) (stdout : List Nat) :
    List Nat :=
  match utf8DecodeStrict stdout with
  | some output => output
  | none =>
    match gbkDecode stdout with
    | some output => output
    | none => utf8DecodeIgnore stdout

/-- Lines 114-127 of `src/build.py`: the output text returned for captured
data `stdoutData` (`if stdout:` is false for `None` and for empty bytes,
yielding `""`; otherwise the bytes are newline-stripped and decoded). -/
def completedOutput (gbkDecode : List Nat → Option (List Nat))
    (stdoutData : Option (List Nat)) : List Nat :=
  match stdoutData with
  | some stdout =>
    if stdout = [] then [] else decodeBytes gbkDecode (stripNewline stdout)
  | none => []

/-! ### The pre-launch phase of `runcmd` (lines 51-88) -/

/-- Lines 65-78 of `src/build.py`: argument resolution.  A string is
tokenised with `shlex.split` on POSIX and kept whole elsewhere; an iterable
must contain only `str` or `Path` items (the first offending item raises
`TypeError`), is mapped through `str`, and is re-joined with
`subprocess.list2cmdline` on Windows; any other type raises `TypeError`. -/
def resolveArgs (plat : Platform) (args : ArgsSpec) : Except RunError ResolvedArgs :=
  match args with
  | .str s =>
    if plat.osName = .posix then .ok (.argList (plat.shlexSplit s))
    else .ok (.argStr s)
  | .iter items =>
    match items.find? (fun item => ! item.isStrOrPath) with
    | some bad => .error (.typeErrorBadItem bad.typeName)
    | none =>
      let mapped := items.map PyVal.toStr
      if plat.osName = .nt then .ok (.argStr (plat.list2cmdline mapped))
      else .ok (.argList mapped)
  | .other ty => .error (.typeErrorBadArgs ty)

/-- Lines 51-88 of `src/build.py`: the validation and normalization that
runs before `subprocess.Popen` is called.  In source order: the
`input`/`stdin` conflict check (lines 51-54), the capture-mode
`stdout`/`stderr` conflict check (lines 56-63), argument resolution
(lines 65-78), and the `startupinfo` type check performed on Windows when
the window is hidden (lines 80-87).  The keyword-dictionary mutations
(`stdin=PIPE`, `stdout=PIPE`, `stderr=STDOUT`, `shell`) configure the
process oracle and have no further observable effect in the model. -/
def prepare (plat : Platform) (args : ArgsSpec)
    (enable_stdout show_window : Bool) (input : Option String)
    (kwargs : Kwargs) : Except RunError ResolvedArgs :=
  if input.isSome ∧ kwargs.stdin.isSome then .error .valueErrorStdinInput
  else if ¬ enable_stdout ∧ (kwargs.stdout.isSome ∨ kwargs.stderr.isSome) then
    .error .valueErrorStdoutStderr
  else
    match resolveArgs plat args with
    | .error e => .error e
    | .ok pargs =>
      if plat.osName = .nt ∧ ¬ show_window ∧ kwargs.startupinfo = some .improper
      then .error .typeErrorStartupinfo
      else .ok pargs

/-! ### The launch-and-wait phase of `runcmd` (lines 89-128) -/

/-- Lines 89-128 of `src/build.py`, given the oracle's process behaviour.
If `Popen` itself raises, nothing was launched; with `check=True` the
failure is re-raised (line 105), otherwise it becomes
`("" if enable_stdout else str(exc), 2)` (lines 106-108).
On `subprocess.TimeoutExpired` the process is killed (line 94), reaped by
`communicate` on Windows (which attaches the remaining output to the
exception, lines 95-96) or `wait` elsewhere (line 98), the `with` block's
`__exit__` closes the pipes and waits again, and the exception reaches the
handler of line 103: re-raised with `check=True`, otherwise converted to
the same data result.  Any other exception is killed-and-re-raised
(lines 100-102) and handled the same way.  On completion, the exit status
is read (line 109); with `check=True` and a non-zero status a
`subprocess.CalledProcessError` carrying the raw captured bytes is raised
(lines 110-113); otherwise the captured bytes are newline-stripped,
decoded and returned with the status (lines 114-128). -/
def launch (plat : Platform) (outcome : ProcOutcome) (pargs : ResolvedArgs)
    (enable_stdout check : Bool) :
    Except RunError (List Nat × Int) × List PEvent :=
  match outcome with
  | .launchFailure msg =>
    if check then (.error (.launchError msg), [])
    else (.ok (if enable_stdout then [] else msg, 2), [])
  | .timeoutExpired partialOut msg =>
    let events := [PEvent.launched, PEvent.killed] ++
      (if plat.mswindows then [PEvent.communicateReaped] else [PEvent.waited]) ++
      [PEvent.ctxExit]
    if check then
      (.error (.timeoutError (if plat.mswindows then partialOut else none) msg),
        events)
    else (.ok (if enable_stdout then [] else msg, 2), events)
  | .otherExc msg =>
    let events := [PEvent.launched, PEvent.killed, PEvent.ctxExit]
    if check then (.error (.otherError msg), events)
    else (.ok (if enable_stdout then [] else msg, 2), events)
  | .completed stdoutData stderrData retcode =>
    let events := [PEvent.launched, PEvent.ctxExit]
    if check ∧ retcode ≠ 0 then
      (.error (.calledProcessError retcode pargs stdoutData stderrData), events)
    else (.ok (completedOutput plat.gbkDecode stdoutData, retcode), events)

/-- The whole of `runcmd` (lines 18-128 of `src/build.py`), also returning
the trace of events performed on the underlying process.  `shell` and
`timeout` are forwarded to `Popen`/`communicate` and therefore only
influence the oracle's behaviour, not the wrapper's. -/
def runcmdT (plat : Platform) (outcome : ProcOutcome) (args : ArgsSpec)
    (shell enable_stdout show_window : Bool) (input : Option String)
    (timeout : Option Nat) (check : Bool) (kwargs : Kwargs) :
    Except RunError (List Nat × Int) × List PEvent :=
  match prepare plat args enable_stdout show_window input kwargs with
  | .error e => (.error e, [])
  | .ok pargs => launch plat outcome pargs enable_stdout check

/-- The result of `runcmd` as seen by its caller: the returned
`(output, returncode)` pair or the raised exception. -/
def runcmd (plat : Platform) (outcome : ProcOutcome) (args : ArgsSpec)
    (shell enable_stdout show_window : Bool) (input : Option String)
    (timeout : Option Nat) (check : Bool) (kwargs : Kwargs) :
    Except RunError (List Nat × Int) :=
  (runcmdT plat outcome args shell enable_stdout show_window input timeout
    check kwargs).1

/-- Whether the args value is an invalid CommandSpec shape in the sense of
the spec's §3 and §7: an iterable containing a non-`str`, non-`Path`
element, or a value that is neither a string nor an iterable. -/
def badShape : ArgsSpec → Bool
  | .str _ => false
  | .iter items => items.any (fun item => ! item.isStrOrPath)
  | .other _ => true

/-- A concrete POSIX platform used to instantiate witnesses: `shlex.split`
and `list2cmdline` are irrelevant to the instantiated claims and are given
trivial values; the codec is the structural `gbk` model. -/
def plat0 : Platform :=
  ⟨.posix, false, fun s => [s], fun l => String.intercalate " " l, gbkDecodeModel⟩

/-! ## Theorems about the claims -/

/-- If the last `r.length` bytes of `b` (read back to front) are `r`, then
`b` literally ends with `r.reverse`. -/
theorem eq_append_of_reverse_take (b s : List Nat)
    (h : b.reverse.take s.length = s.reverse) :
    b = (b.reverse.drop s.length).reverse ++ s := by
  conv_lhs =>
    rw [← List.reverse_reverse b, ← List.take_append_drop s.length b.reverse, h]
  simp

/-- C6: the trailing-newline stripping of `runcmd` (lines 115-118 of
`src/build.py`) removes exactly one trailing CRLF when the bytes end with
CRLF, otherwise exactly one trailing LF when they end with LF, and leaves
bytes ending with neither unchanged; it never removes more than one
terminator (the stripped result is exactly the input minus that one
suffix). -/
theorem stripNewline_once (b : List Nat) :
    (∀ c, b = c ++ [13, 10] → stripNewline b = c) ∧
    ((∀ d, b ≠ d ++ [13, 10]) → ∀ c, b = c ++ [10] → stripNewline b = c) ∧
    ((∀ d, b ≠ d ++ [13, 10]) → (∀ d, b ≠ d ++ [10]) → stripNewline b = b) := by
  refine ⟨?_, ?_, ?_⟩
  · rintro c rfl
    simp [stripNewline]
  · intro hno c hb
    subst hb
    have h2 : ¬ (c ++ [10]).reverse.take 2 = [10, 13] := fun hc =>
      hno _ (eq_append_of_reverse_take _ [13, 10] hc)
    unfold stripNewline
    rw [if_neg h2, if_pos (by simp)]
    simp
  · intro hno1 hno2
    have h2 : ¬ b.reverse.take 2 = [10, 13] := fun hc =>
      hno1 _ (eq_append_of_reverse_take _ [13, 10] hc)
    have h1 : ¬ b.reverse.take 1 = [10] := fun hc =>
      hno2 _ (eq_append_of_reverse_take _ [10] hc)
    unfold stripNewline
    rw [if_neg h2, if_neg h1]

/-- C6 witness: `b"H\r\n"` is stripped to `b"H"`. -/
theorem stripNewline_once_witness : stripNewline [72, 13, 10] = [72] :=
  (stripNewline_once [72, 13, 10]).1 [72] (by decide)

/-- C5 (amended): the decoding chain of `runcmd` (lines 119-125) tries
UTF-8 first and returns its decoding whenever the bytes are valid UTF-8;
when they are invalid UTF-8 but the `gbk` codec accepts them, the `gbk`
decoding is returned; when both codecs reject, the result is the total
best-effort UTF-8 decoding with unmappable bytes dropped
(`errors="ignore"`), so the chain never raises a decode error. -/
theorem decodeBytes_chain (gbk : List Nat → Option (List Nat)) (b : List Nat) :
    (∀ s, utf8DecodeStrict b = some s → decodeBytes gbk b = s) ∧
    (utf8DecodeStrict b = none → ∀ t, gbk b = some t → decodeBytes gbk b = t) ∧
    (utf8DecodeStrict b = none → gbk b = none →
      decodeBytes gbk b = utf8DecodeIgnore b) := by
  refine ⟨?_, ?_, ?_⟩
  · intro s hs
    unfold decodeBytes
    rw [hs]
  · intro h1 t ht
    unfold decodeBytes
    rw [h1, ht]
  · intro h1 h2
    unfold decodeBytes
    rw [h1, h2]

/-- C5 witness: `b"\xc4\xe3"` is invalid UTF-8 but structurally valid
`gbk`, so the chain returns the fallback codec's decoding. -/
theorem decodeBytes_chain_witness :
    decodeBytes gbkDecodeModel [196, 227] = [50403] :=
  (decodeBytes_chain gbkDecodeModel [196, 227]).2.1 (by decide) [50403] (by decide)

/-- C5 counterexample: on `b"\xff\xff"`, invalid in both codecs, the code's
fallback `decode("utf-8", errors="ignore")` drops the two bytes and yields
the empty string, whereas the claimed substitution of unmappable bytes
(`errors="replace"`) would yield two U+FFFD characters. -/
theorem decodeBytes_ignore_not_replace_cex :
    decodeBytes gbkDecodeModel [255, 255] ≠ utf8DecodeReplace [255, 255] := by
  decide

/-- C1 (amended): for every execution whose wait exceeds `timeout`, the
process is killed on the spot, but the `TimeoutExpired` failure reaches the
caller only when `check` is true: the handler of line 103 of `src/build.py`
catches it when `check` is false and converts it into the returned data
result `(str(exc), 2)` (empty output text when `enable_stdout`), exactly as
it does for launch failures. -/
theorem runcmd_timeout_spec (plat : Platform) (args : ArgsSpec)
    (shell enable_stdout show_window : Bool) (input : Option String)
    (timeout : Option Nat) (check : Bool) (kwargs : Kwargs)
    (pargs : ResolvedArgs) (partialOut : Option (List Nat)) (msg : List Nat)
    (hprep : prepare plat args enable_stdout show_window input kwargs = .ok pargs) :
    (check = true →
      runcmd plat (.timeoutExpired partialOut msg) args shell enable_stdout
          show_window input timeout check kwargs
        = .error (.timeoutError (if plat.mswindows then partialOut else none) msg)) ∧
    (check = false →
      runcmd plat (.timeoutExpired partialOut msg) args shell enable_stdout
          show_window input timeout check kwargs
        = .ok (if enable_stdout then [] else msg, 2)) ∧
    PEvent.killed ∈ (runcmdT plat (.timeoutExpired partialOut msg) args shell
        enable_stdout show_window input timeout check kwargs).2 := by
  unfold runcmd runcmdT launch
  rw [hprep]
  refine ⟨fun h => by subst h; rfl, fun h => by subst h; rfl, ?_⟩
  cases check <;> simp

/-- C1 witness: a timed-out `check=False` run returns `([116], 2)`. -/
theorem runcmd_timeout_spec_witness :
    runcmd plat0 (.timeoutExpired none [116]) (.str "x") false false false
        none (some 1) false Kwargs.empty = .ok ([116], 2) :=
  (runcmd_timeout_spec plat0 (.str "x") false false false none (some 1) false
      Kwargs.empty (.argList ["x"]) none [116] rfl).2.1 rfl

/-- C1 counterexample: with `check=False` a timeout is not raised to the
caller; it is converted into the returned `(output, exitCode)` data result
`(str(exc), 2)`, contradicting the claim that a timeout failure propagates
even when `checkStatus` is false. -/
theorem runcmd_timeout_swallowed_cex :
    runcmd plat0 (.timeoutExpired none [116]) (.str "sleep 10") false false
        false none (some 1) false Kwargs.empty = .ok ([116], 2) := rfl

/-- C2 (amended): when the process fails to launch and `check` is false,
`runcmd` returns the sentinel exit code 2; the output text is the
stringified error message only in capture mode (`enable_stdout=False`) —
with `enable_stdout=True` line 107 of `src/build.py` returns an empty
output text instead.  With `check` true the failure is re-raised, and in
either case no process event occurs. -/
theorem runcmd_launchfail_spec (plat : Platform) (args : ArgsSpec)
    (shell enable_stdout show_window : Bool) (input : Option String)
    (timeout : Option Nat) (kwargs : Kwargs) (pargs : ResolvedArgs)
    (msg : List Nat)
    (hprep : prepare plat args enable_stdout show_window input kwargs = .ok pargs) :
    runcmd plat (.launchFailure msg) args shell enable_stdout show_window
        input timeout false kwargs
      = .ok (if enable_stdout then [] else msg, 2) ∧
    runcmd plat (.launchFailure msg) args shell enable_stdout show_window
        input timeout true kwargs = .error (.launchError msg) ∧
    (runcmdT plat (.launchFailure msg) args shell enable_stdout show_window
        input timeout false kwargs).2 = [] := by
  unfold runcmd runcmdT launch
  rw [hprep]
  exact ⟨rfl, rfl, rfl⟩

/-- C2 witness: a swallowed launch failure in capture mode returns the
stringified message with exit code 2. -/
theorem runcmd_launchfail_spec_witness :
    runcmd plat0 (.launchFailure [104]) (.str "x") false false false none
        none false Kwargs.empty = .ok ([104], 2) :=
  (runcmd_launchfail_spec plat0 (.str "x") false false false none none
      Kwargs.empty (.argList ["x"]) [104] rfl).1

/-- C2 counterexample: with `enable_stdout=True` (and `check=False`) a
launch failure is downgraded to `("", 2)` — the output is empty, not the
stringified error message `[72]`, so the claimed behaviour does not hold
for every setting of the other options. -/
theorem runcmd_launchfail_stdout_cex :
    runcmd plat0 (.launchFailure [72]) (.str "nosuch") false true false none
        none false Kwargs.empty = .ok ([], 2) ∧ ([] : List Nat) ≠ [72] :=
  ⟨rfl, by decide⟩

/-- C3 (amended): `runcmd` resolves the exit status before decoding: when
`check` is true and the status is non-zero, line 111 of `src/build.py`
raises immediately and the `CalledProcessError` carries the raw captured
bytes, to which neither the newline-strip nor the decode step of
lines 114-127 has been applied; those steps run only on the normal return
path. -/
theorem runcmd_status_before_decode (plat : Platform) (args : ArgsSpec)
    (shell enable_stdout show_window : Bool) (input : Option String)
    (timeout : Option Nat) (kwargs : Kwargs) (pargs : ResolvedArgs)
    (sout serr : Option (List Nat)) (rc : Int)
    (hprep : prepare plat args enable_stdout show_window input kwargs = .ok pargs)
    (hrc : rc ≠ 0) :
    runcmd plat (.completed sout serr rc) args shell enable_stdout
        show_window input timeout true kwargs
      = .error (.calledProcessError rc pargs sout serr) := by
  unfold runcmd runcmdT launch
  rw [hprep]
  simp [hrc]

/-- C3 witness: with `check=True` and exit status 1, the raised error
carries the raw bytes `b"H\n"`, trailing newline still present. -/
theorem runcmd_status_before_decode_witness :
    runcmd plat0 (.completed (some [72, 10]) none 1) (.str "x") false false
        false none none true Kwargs.empty
      = .error (.calledProcessError 1 (.argList ["x"]) (some [72, 10]) none) :=
  runcmd_status_before_decode plat0 (.str "x") false false false none none
    Kwargs.empty (.argList ["x"]) (some [72, 10]) none 1 rfl (by decide)

/-- C3 counterexample: the structured error raised for a non-zero exit
status carries the raw captured bytes `[72, 10]`, not the stripped decoded
text `[72]` the claim promises, so the decode step does not precede the
status-resolution step. -/
theorem runcmd_error_raw_bytes_cex :
    runcmd plat0 (.completed (some [72, 10]) none 1) (.str "y") false false
        false none none true Kwargs.empty
      = .error (.calledProcessError 1 (.argList ["y"]) (some [72, 10]) none) ∧
    decodeBytes plat0.gbkDecode (stripNewline [72, 10]) ≠ [72, 10] :=
  ⟨rfl, by decide⟩

/-- C4: for every completed execution with `check=False`, `runcmd` returns
exactly the OS-reported exit status together with the decoded output
(line 109 then line 128 of `src/build.py`), including non-zero statuses;
in particular the modelled `runcmd("exit 3", shell=True, check=False)` run,
whose process exits with status 3 and empty captured output, returns
`("", 3)`. -/
theorem runcmd_returns_os_exit_code (plat : Platform) (args : ArgsSpec)
    (shell enable_stdout show_window : Bool) (input : Option String)
    (timeout : Option Nat) (kwargs : Kwargs) (pargs : ResolvedArgs)
    (sout serr : Option (List Nat)) (rc : Int)
    (hprep : prepare plat args enable_stdout show_window input kwargs = .ok pargs) :
    runcmd plat (.completed sout serr rc) args shell enable_stdout
        show_window input timeout false kwargs
      = .ok (completedOutput plat.gbkDecode sout, rc) ∧
    runcmd plat0 (.completed (some []) none 3) (.str "exit 3") true false
        false none none false Kwargs.empty = .ok ([], 3) := by
  constructor
  · unfold runcmd runcmdT launch
    rw [hprep]
    simp
  · rfl

/-- C4 witness: a run that exits with status 5 and captured `b"H\n"`
returns `("H", 5)`. -/
theorem runcmd_returns_os_exit_code_witness :
    runcmd plat0 (.completed (some [72, 10]) none 5) (.str "x") false false
        false none none false Kwargs.empty = .ok ([72], 5) :=
  (runcmd_returns_os_exit_code plat0 (.str "x") false false false none none
      Kwargs.empty (.argList ["x"]) (some [72, 10]) none 5 rfl).1

/-- C8: when the process ran and exited non-zero and `check` is true,
`runcmd` raises a `CalledProcessError` carrying the real exit code and the
captured output (lines 110-113 of `src/build.py`); with `check` false it
returns the `(output, exitCode)` pair unconditionally. -/
theorem runcmd_nonzero_exit (plat : Platform) (args : ArgsSpec)
    (shell enable_stdout show_window : Bool) (input : Option String)
    (timeout : Option Nat) (kwargs : Kwargs) (pargs : ResolvedArgs)
    (sout serr : Option (List Nat)) (rc : Int)
    (hprep : prepare plat args enable_stdout show_window input kwargs = .ok pargs)
    (hrc : rc ≠ 0) :
    runcmdT plat (.completed sout serr rc) args shell enable_stdout
        show_window input timeout true kwargs
      = (.error (.calledProcessError rc pargs sout serr),
         [PEvent.launched, PEvent.ctxExit]) ∧
    runcmdT plat (.completed sout serr rc) args shell enable_stdout
        show_window input timeout false kwargs
      = (.ok (completedOutput plat.gbkDecode sout, rc),
         [PEvent.launched, PEvent.ctxExit]) := by
  unfold runcmdT launch
  rw [hprep]
  constructor <;> simp [hrc]

/-- C8 witness: exit status 7 with `check=True` raises the structured
error; with `check=False` the pair `("", 7)` is returned. -/
theorem runcmd_nonzero_exit_witness :
    runcmdT plat0 (.completed (some []) none 7) (.str "x") false false false
        none none true Kwargs.empty
      = (.error (.calledProcessError 7 (.argList ["x"]) (some []) none),
         [PEvent.launched, PEvent.ctxExit]) :=
  (runcmd_nonzero_exit plat0 (.str "x") false false false none none
      Kwargs.empty (.argList ["x"]) (some []) none 7 rfl (by decide)).1

/-- C7: an invalid CommandSpec shape (an iterable with a non-`str`,
non-`Path` element, or an args value that is neither a string nor an
iterable) or a call supplying both `input` and an explicit `stdin`
redirection makes `runcmd` raise a configuration error (`TypeError` or
`ValueError`) before any process is launched — the event trace is empty —
for every process oracle and every value of `check`; the error is never
swallowed into a returned result. -/
theorem runcmd_config_error (plat : Platform) (outcome : ProcOutcome)
    (args : ArgsSpec) (shell enable_stdout show_window : Bool)
    (input : Option String) (timeout : Option Nat) (check : Bool)
    (kwargs : Kwargs)
    (h : badShape args = true ∨ (input.isSome = true ∧ kwargs.stdin.isSome = true)) :
    ∃ e, runcmdT plat outcome args shell enable_stdout show_window input
        timeout check kwargs = (.error e, []) ∧ e.isConfigError = true := by
  have hp : ∃ e, prepare plat args enable_stdout show_window input kwargs
      = .error e ∧ e.isConfigError = true := by
    by_cases h1 : (input.isSome = true) ∧ (kwargs.stdin.isSome = true)
    · exact ⟨.valueErrorStdinInput, by unfold prepare; rw [if_pos h1], rfl⟩
    · rcases h with hbad | hio
      on_goal 2 => exact absurd hio h1
      by_cases h2 : (¬ enable_stdout = true) ∧
          (kwargs.stdout.isSome = true ∨ kwargs.stderr.isSome = true)
      · exact ⟨.valueErrorStdoutStderr, by
          unfold prepare; rw [if_neg h1, if_pos h2], rfl⟩
      · cases args with
        | str s => simp [badShape] at hbad
        | iter items =>
          have hsome : (items.find? (fun item => ! item.isStrOrPath)).isSome := by
            rw [List.find?_isSome]
            simpa [badShape, List.any_eq_true] using hbad
          obtain ⟨bad, hbadfind⟩ := Option.isSome_iff_exists.mp hsome
          refine ⟨.typeErrorBadItem bad.typeName, ?_, rfl⟩
          have hres : resolveArgs plat (.iter items)
              = .error (.typeErrorBadItem bad.typeName) := by
            simp [resolveArgs, hbadfind]
          unfold prepare
          rw [if_neg h1, if_neg h2, hres]
        | other ty =>
          refine ⟨.typeErrorBadArgs ty, ?_, rfl⟩
          have hres : resolveArgs plat (.other ty)
              = .error (.typeErrorBadArgs ty) := by
            simp [resolveArgs]
          unfold prepare
          rw [if_neg h1, if_neg h2, hres]
  obtain ⟨e, he, hc⟩ := hp
  refine ⟨e, ?_, hc⟩
  unfold runcmdT
  rw [he]

/-- C7 witness: an args list containing an `int` raises a `TypeError`-class
configuration error with no process launched, even with `check=False`. -/
theorem runcmd_config_error_witness :
    ∃ e, runcmdT plat0 (.completed none none 0) (.iter [.other "int"]) false
        false false none none false Kwargs.empty = (.error e, []) ∧
      RunError.isConfigError e = true :=
  runcmd_config_error plat0 (.completed none none 0) (.iter [.other "int"])
    false false false none none false Kwargs.empty (Or.inl (by decide))

/-- C9: on every exit path of `runcmd` after a process has been launched
the process is reaped and its handles released before control returns —
the event trace ends with the `Popen.__exit__` reap-and-close event — and
on the timeout and exception paths the process is additionally killed
first; a timeout never leaves the process running. -/
theorem runcmd_process_cleanup (plat : Platform) (outcome : ProcOutcome)
    (args : ArgsSpec) (shell enable_stdout show_window : Bool)
    (input : Option String) (timeout : Option Nat) (check : Bool)
    (kwargs : Kwargs) (pargs : ResolvedArgs) (tr : List PEvent)
    (hprep : prepare plat args enable_stdout show_window input kwargs = .ok pargs)
    (htr : tr = (runcmdT plat outcome args shell enable_stdout show_window
        input timeout check kwargs).2) :
    (PEvent.launched ∈ tr → tr.getLast? = some PEvent.ctxExit) ∧
    (∀ p m, outcome = .timeoutExpired p m →
      PEvent.killed ∈ tr ∧ PEvent.launched ∈ tr) ∧
    (∀ m, outcome = .otherExc m → PEvent.killed ∈ tr) ∧
    (∀ d s rc, outcome = .completed d s rc →
      PEvent.launched ∈ tr ∧ tr.getLast? = some PEvent.ctxExit) := by
  subst htr
  unfold runcmdT launch
  rw [hprep]
  cases outcome <;> cases check <;> cases plat.mswindows <;>
    refine ⟨?_, ?_, ?_, ?_⟩ <;> intros <;> simp_all [apply_ite Prod.snd]

/-- C9 witness: for a timed-out run the trace is
`[launched, killed, waited, ctxExit]`: the process was killed, reaped and
its handles closed before return. -/
theorem runcmd_process_cleanup_witness :
    PEvent.killed ∈ [PEvent.launched, PEvent.killed, PEvent.waited,
        PEvent.ctxExit] ∧
      PEvent.launched ∈ [PEvent.launched, PEvent.killed, PEvent.waited,
        PEvent.ctxExit] :=
  (runcmd_process_cleanup plat0 (.timeoutExpired none [1]) (.str "x") false
      false false none (some 1) false Kwargs.empty (.argList ["x"])
      [PEvent.launched, PEvent.killed, PEvent.waited, PEvent.ctxExit]
      rfl rfl).2.1 none [1] rfl

/-- C10: in capture mode (`enable_stdout=False`) a caller-supplied `stdout`
or `stderr` redirection makes `runcmd` raise a `ValueError` (lines 56-63 of
`src/build.py`) before any process is launched, for every oracle and every
`check`. -/
theorem runcmd_capture_conflict (plat : Platform) (outcome : ProcOutcome)
    (args : ArgsSpec) (shell show_window : Bool) (input : Option String)
    (timeout : Option Nat) (check : Bool) (kwargs : Kwargs)
    (h : kwargs.stdout.isSome = true ∨ kwargs.stderr.isSome = true) :
    ∃ e, runcmdT plat outcome args shell false show_window input timeout
        check kwargs = (.error e, []) ∧ e.isValueError = true := by
  by_cases h1 : (input.isSome = true) ∧ (kwargs.stdin.isSome = true)
  · exact ⟨.valueErrorStdinInput, by
      unfold runcmdT prepare; rw [if_pos h1], rfl⟩
  · refine ⟨.valueErrorStdoutStderr, ?_, rfl⟩
    unfold runcmdT prepare
    rw [if_neg h1, if_pos ⟨by simp, h⟩]

/-- C10 witness: with capture mode and a supplied `stdout` redirection the
call fails with a `ValueError` and no process event. -/
theorem runcmd_capture_conflict_witness :
    ∃ e, runcmdT plat0 (.completed none none 0) (.str "x") false false false
        none none false ⟨none, some (), none, none⟩ = (.error e, []) ∧
      RunError.isValueError e = true :=
  runcmd_capture_conflict plat0 (.completed none none 0) (.str "x") false
    false none none false ⟨none, some (), none, none⟩ (Or.inl rfl)

end Build
